/-
  Verification of the meet-transcription-bot audio/transcription pipeline.

  Shallow embedding of the core pipeline of the repository:
    * src/transcription/engine.py  (TranscriptionEngine)
    * src/audio/processor.py       (AudioProcessor)
    * src/audio/audio_manager.py   (AudioManager)
    * src/audio/capture.py         (AudioCapture)

  Modelling conventions:
  - Python floats that carry durations, confidences and feature values are
    modelled as rationals (ℚ); the claims under study are about exact control
    flow and exact stored values, not float rounding.
  - numpy int16 arithmetic wraps modulo 2^16 into [-32768, 32767]; this is
    modelled explicitly by `wrapInt16`.
  - External collaborators (speech recognizer, LLM enhancement / style
    classification / summarization, the audio device) are parameters
    ("oracles"): a function argument describes the behaviour of the
    collaborator on this call.
  - Python exceptions are modelled with `Except`: a helper `*_body` function
    returns `Except` and the public function applies the source's
    try/except handler to it.
-/
import Mathlib

/-- numpy int16 wraparound: reduce an integer modulo 2^16 into [-32768, 32767].
    Used wherever the source does arithmetic on `dtype=np.int16` arrays. -/
def wrapInt16 (x : Int) : Int := (x + 32768) % 65536 - 32768

/-- The dictionary built by `TranscriptionEngine.transcribe_audio`
    (src/transcription/engine.py lines 80-104). Keys that are present only on
    some paths (`language`, `timestamp`, `speaker`, `error`,
    `relative_timestamp`) are `Option`s; `none` models an absent key. -/
structure TranscriptionResult where
  text : String
  confidence : ℚ
  language : Option String
  timestamp : Option String
  speaker : Option String
  error : Option String
  relative_timestamp : Option ℚ
deriving Repr, DecidableEq

/-- Result of `TranscriptionEngine._extract_audio_features`
    (src/transcription/engine.py lines 191-195). -/
structure AudioFeatures where
  energy : ℚ
  pitch : ℚ
  duration : ℚ
deriving Repr, DecidableEq

/-- State of a `TranscriptionEngine` instance (src/transcription/engine.py).
    `has_llm` models `self.llm is not None`.
    `transcription_cache` models the Python attribute `self.transcription_cache`:
    `none` means the attribute has never been assigned, so reading it raises
    `AttributeError`. `__init__` (lines 20-48) assigns `recognizer`,
    `language`, `use_ai_enhancement` and `llm` but never
    `transcription_cache`, hence every fresh instance carries `none` here. -/
structure TranscriptionEngine where
  use_ai_enhancement : Bool
  has_llm : Bool
  language : String
  enable_speaker_identification : Bool
  transcription_cache : Option (List (String × TranscriptionResult))
deriving Repr, DecidableEq

namespace TranscriptionEngine

/-- `TranscriptionEngine.__init__` (src/transcription/engine.py lines 20-48).
    `use_ai_param` is the constructor argument (`None` ⇒ use
    `settings.use_ai_enhancement`); `has_api_key` is
    `settings.openai_api_key` being set; `llm_init_ok` is whether `LLM(...)`
    construction succeeds. The method never assigns
    `self.transcription_cache`, so the cache attribute stays unassigned
    (`none`). -/
def pyInit (use_ai_param : Option Bool) (settings_use_ai : Bool)
    (has_api_key : Bool) (llm_init_ok : Bool) (lang : String)
    (spk : Bool) : TranscriptionEngine :=
  let use_ai := use_ai_param.getD settings_use_ai
  if use_ai && has_api_key then
    if llm_init_ok then
      { use_ai_enhancement := use_ai, has_llm := true, language := lang,
        enable_speaker_identification := spk, transcription_cache := none }
    else
      { use_ai_enhancement := false, has_llm := false, language := lang,
        enable_speaker_identification := spk, transcription_cache := none }
  else
    { use_ai_enhancement := use_ai, has_llm := false, language := lang,
      enable_speaker_identification := spk, transcription_cache := none }

/-- Sum of int16-wrapped squares of the samples: models `audio_data**2` on a
    numpy `int16` array (src/transcription/engine.py line 180), where the
    per-element square wraps modulo 2^16 before `np.mean` upcasts to float. -/
def sumSqWrapped (s : List Int) : Int :=
  (s.map (fun x => wrapInt16 (x * x))).sum

/-- The radicand of the source's energy computation, times nothing: the mean
    of the int16-wrapped squares. The source's energy (line 180) is
    `sqrt` of this value divided by 32768; a negative value here makes
    `np.sqrt` produce NaN. -/
def meanSquareCode (s : List Int) : ℚ :=
  (sumSqWrapped s : ℚ) / (s.length : ℚ)

/-- The mean of squares over the exact integer sample values, the radicand of
    the spec formula `energy = sqrt(mean(sample^2)) / 32768` (spec §4.3).
    Definition written from the spec's words, for comparison with
    `meanSquareCode`. -/
def meanSquareExact (s : List Int) : ℚ :=
  let t : Int := (s.map (fun x => x * x)).sum
  (t : ℚ) / (s.length : ℚ)

/-- Exact (unbounded-integer) autocorrelation of the sample sequence at a
    non-negative lag `k`: `Σ_i s[i] * s[i+k]`. -/
def autocorrRaw (s : List Int) (k : Nat) : Int :=
  ((s.zip (s.drop k)).map (fun p => p.1 * p.2)).sum

/-- The value the source actually computes at lag `k`:
    `np.correlate(audio_data, audio_data, mode='full')` on `int16` input
    keeps dtype int16, so every product and every partial sum wraps modulo
    2^16; the final value is therefore the exact autocorrelation wrapped
    once (src/transcription/engine.py line 184). -/
def autocorrCode (s : List Int) (k : Nat) : Int :=
  wrapInt16 (autocorrRaw s k)

/-- Index of the first maximum of a list (`np.argmax` tie-breaking). -/
def argmaxIdx (l : List Int) : Nat :=
  (l.enum.foldl (fun (best : Nat × Int) (p : Nat × Int) =>
      if p.2 > best.2 then p else best) (0, l.headD 0)).1

/-- Pitch as computed by `_extract_audio_features` (lines 182-189).
    The halved full autocorrelation has one entry per lag `0..n-1`; the
    slice `autocorr[20:500]` covers lags `20..min(500,n)-1`. When the slice
    is empty (`n ≤ 20`), `np.argmax` raises ValueError and the method's
    handler (lines 196-198) zeroes all features, so the pitch is 0. -/
def pitchCode (s : List Int) (rate : ℚ) : ℚ :=
  let n := s.length
  if n ≤ 20 then 0
  else
    let lags := (List.range n).drop 20 |>.take 480
    let vals := lags.map (autocorrCode s)
    let first_peak := argmaxIdx vals + 20
    if first_peak > 0 then rate / (first_peak : ℚ) else 0

end TranscriptionEngine

/-- Outcome of `recognizer.recognize_google` (src/transcription/engine.py
    lines 61-78): recognized text, `sr.UnknownValueError` (no speech), or
    `sr.RequestError` (service failure). -/
inductive RecognitionOutcome where
  | recognized (text : String)
  | unknownValue
  | requestError (msg : String)
deriving Repr, DecidableEq

/-- Behaviour of the external collaborators during one `transcribe_audio`
    call. `load_error p = some e` means `sr.AudioFile(p)` / `record` raises
    exception `e`; `enhance t = none` means the LLM enhancement call raises
    (the source then falls back to `t`); `classify_style t = none` means the
    LLM style call raises; `features p` is what
    `_extract_audio_features(p)` returns (that method catches its own
    exceptions and is total); `now` is `datetime.utcnow().isoformat()`. -/
structure TranscribeEnv where
  load_error : String → Option String
  recognize : String → RecognitionOutcome
  enhance : String → Option String
  classify_style : String → Option String
  features : String → AudioFeatures
  now : String

namespace TranscriptionEngine

/-- `TranscriptionEngine._enhance_transcription` (lines 106-128): on any
    exception from the LLM, return the original text. -/
def enhance_transcription (env : TranscribeEnv) (text : String) : String :=
  (env.enhance text).getD text

/-- Python `int()` truncation toward zero on a rational. -/
def pyTrunc (q : ℚ) : Int := if q ≥ 0 then q.floor else -((-q).floor)

/-- `TranscriptionEngine._simple_speaker_identification` (lines 163-170). -/
def simple_speaker_identification (energy : ℚ) : String :=
  if energy < 3/10 then "Hablante 1"
  else if energy < 6/10 then "Hablante 2"
  else "Hablante 3"

/-- `TranscriptionEngine._identify_speaker` (lines 130-161). The LLM style
    call is only attempted when AI enhancement is on, an LLM exists, and the
    text is non-empty and not the no-speech sentinel; on a style-call
    exception the source falls back to the simple identification. -/
def identify_speaker (eng : TranscriptionEngine) (env : TranscribeEnv)
    (fts : AudioFeatures) (text : String) : String :=
  let energy := fts.energy
  if eng.use_ai_enhancement && eng.has_llm && (text != "") && (text != "[Inaudible]") then
    match env.classify_style text with
    | some style =>
        let style := style.toUpper
        if style = "FORMAL" ∨ style = "TECNICO" then
          if energy > 1/2 then "Presentador" else "Moderador"
        else
          "Participante " ++ toString (pyTrunc (energy * 3) + 1)
    | none => simple_speaker_identification energy
  else
    simple_speaker_identification energy

/-- Store into the cache dict: `self.transcription_cache[audio_path] = result`. -/
def storeAssoc (cache : List (String × TranscriptionResult)) (k : String)
    (v : TranscriptionResult) : List (String × TranscriptionResult) :=
  (cache.filter (fun p => p.1 != k)) ++ [(k, v)]

/-- Body of `TranscriptionEngine.transcribe_audio` inside the outer `try`
    (lines 54-96), together with the number of `recognize_google`
    invocations it performs (0 or 1). `Except.error` models a Python
    exception escaping the `try` body; it happens when loading the audio
    file raises, or at line 94 when `self.transcription_cache` was never
    assigned (AttributeError). Note there is no cache lookup anywhere in
    the body. -/
def transcribe_body (eng : TranscriptionEngine) (env : TranscribeEnv)
    (audio_path : String) :
    Except String (TranscriptionResult × TranscriptionEngine) × Nat :=
  match env.load_error audio_path with
  | some e => (Except.error e, 0)
  | none =>
    let tc : String × ℚ :=
      match env.recognize audio_path with
      | .recognized t =>
          let t :=
            if eng.use_ai_enhancement && eng.has_llm && (t != "") then
              enhance_transcription env t
            else t
          (t, 9/10)
      | .unknownValue => ("[Inaudible]", 0)
      | .requestError _ => ("[Error de transcripción]", 0)
    let base : TranscriptionResult :=
      { text := tc.1, confidence := tc.2, language := some eng.language,
        timestamp := some env.now, speaker := none, error := none,
        relative_timestamp := none }
    let result :=
      if eng.enable_speaker_identification then
        { base with
            speaker := some (identify_speaker eng env (env.features audio_path) tc.1) }
      else base
    match eng.transcription_cache with
    | none =>
        (Except.error "AttributeError: TranscriptionEngine has no attribute transcription_cache", 1)
    | some cache =>
        (Except.ok (result,
          { eng with transcription_cache := some (storeAssoc cache audio_path result) }), 1)

/-- `TranscriptionEngine.transcribe_audio` (lines 50-104): run the body and
    absorb any exception into the `"[Error]"` sentinel dict of lines
    100-104 (which carries only `text`, `confidence` and `error`), leaving
    the engine state unchanged. The `Nat` component counts invocations of
    the external recognizer during the call. -/
def transcribe_audio (eng : TranscriptionEngine) (env : TranscribeEnv)
    (audio_path : String) : TranscriptionResult × TranscriptionEngine × Nat :=
  match transcribe_body eng env audio_path with
  | (Except.ok (r, eng2), n) => (r, eng2, n)
  | (Except.error e, n) =>
      ({ text := "[Error]", confidence := 0, language := none,
         timestamp := none, speaker := none, error := some e,
         relative_timestamp := none }, eng, n)

/-- Line used to build the summary transcript (line 208):
    `f"{t.get('speaker', 'Desconocido')}: {t.get('text', '')}"`. -/
def transcript_line (t : TranscriptionResult) : String :=
  t.speaker.getD "Desconocido" ++ ": " ++ t.text

/-- The filter of lines 209-211: keep entries whose text is truthy and not
    the no-speech sentinel. (The error sentinels are NOT filtered here.) -/
def summaryKeep (t : TranscriptionResult) : Bool :=
  (t.text != "") && (t.text != "[Inaudible]")

/-- `TranscriptionEngine.generate_meeting_summary` (lines 200-229).
    `summarize` is the external summarization capability
    (`none` = the LLM call raises, handled by lines 227-229). -/
def generate_meeting_summary (eng : TranscriptionEngine)
    (summarize : String → Option String)
    (transcriptions : List TranscriptionResult) : String :=
  if !eng.use_ai_enhancement || !eng.has_llm then
    "Resumen no disponible (IA no habilitada)"
  else
    let full_text :=
      String.intercalate "\n"
        ((transcriptions.filter summaryKeep).map transcript_line)
    if full_text = "" then
      "No hay suficiente contenido para generar un resumen"
    else
      match summarize full_text with
      | some s => s
      | none => "Error al generar resumen"

end TranscriptionEngine

/-- A WAV byte sequence as produced by `AudioProcessor._numpy_to_wav`
    (src/audio/processor.py lines 58-69): a RIFF header describing channel
    count, 16-bit sample width and frame rate, followed by the sample data.
    The byte sequence of a WAV value is never empty (44-byte header). -/
structure Wav where
  channels : Nat
  sampwidth : Nat
  framerate : ℚ
  frames : List Int
deriving Repr, DecidableEq

/-- State of an `AudioProcessor` (src/audio/processor.py lines 15-26).
    `audio_buffer` holds the raw chunk sample arrays in arrival order;
    `buffer_duration` is the running float total maintained by `add_chunk`. -/
structure AudioProcessor where
  sample_rate : ℚ
  channels : Nat
  audio_buffer : List (List Int)
  buffer_duration : ℚ
  target_duration : ℚ
deriving Repr, DecidableEq

namespace AudioProcessor

/-- `AudioProcessor.__init__` (lines 15-26): empty buffer, zero duration. -/
def init (rate : ℚ) (ch : Nat) (tgt : ℚ) : AudioProcessor :=
  { sample_rate := rate, channels := ch, audio_buffer := [],
    buffer_duration := 0, target_duration := tgt }

/-- `AudioProcessor.add_chunk` (lines 28-31): append the chunk data, add its
    duration to the running total. -/
def add_chunk (p : AudioProcessor) (audio_data : List Int) (duration : ℚ) :
    AudioProcessor :=
  { p with audio_buffer := p.audio_buffer ++ [audio_data],
           buffer_duration := p.buffer_duration + duration }

/-- `AudioProcessor.get_buffer_duration` (lines 33-35). -/
def get_buffer_duration (p : AudioProcessor) : ℚ := p.buffer_duration

/-- `AudioProcessor.clear_buffer` (lines 117-120). -/
def clear_buffer (p : AudioProcessor) : AudioProcessor :=
  { p with audio_buffer := [], buffer_duration := 0 }

/-- `AudioProcessor._numpy_to_wav` (lines 58-69). -/
def numpy_to_wav (p : AudioProcessor) (samples : List Int) : Wav :=
  { channels := p.channels, sampwidth := 2, framerate := p.sample_rate,
    frames := samples }

/-- `AudioProcessor.process_buffer` (lines 37-56): `None` and no state change
    on an empty buffer; otherwise concatenate the chunks, encode as WAV,
    clear the buffer, and return the bytes. (List concatenation and WAV
    encoding are total, so the `except` branch of lines 54-56 is
    unreachable in the model.) -/
def process_buffer (p : AudioProcessor) : Option Wav × AudioProcessor :=
  if p.audio_buffer = [] then (none, p)
  else (some (p.numpy_to_wav p.audio_buffer.flatten), p.clear_buffer)

/-- Run a sequence of `add_chunk` calls from a fresh processor. -/
def execAdds (rate : ℚ) (ch : Nat) (tgt : ℚ)
    (ops : List (List Int × ℚ)) : AudioProcessor :=
  ops.foldl (fun p op => p.add_chunk op.1 op.2) (init rate ch tgt)

end AudioProcessor

/-- State of an `AudioCapture` instance (src/audio/capture.py lines 32-136).
    `streams_opened` counts device streams opened over the object's
    lifetime, to observe that no second stream is opened. -/
structure CaptureState where
  is_recording : Bool
  stream_open : Bool
  streams_opened : Nat
deriving Repr, DecidableEq

namespace CaptureState

/-- `AudioCapture.__init__` (lines 35-47). -/
def init : CaptureState :=
  { is_recording := false, stream_open := false, streams_opened := 0 }

/-- `AudioCapture.start_capture` (lines 49-71): early return if already
    recording; otherwise open a stream (`open_ok` tells whether
    `self.audio.open` succeeds; on failure the exception is re-raised). -/
def start_capture (c : CaptureState) (open_ok : Bool) :
    Except String CaptureState :=
  if c.is_recording then Except.ok c
  else if open_ok then
    Except.ok { is_recording := true, stream_open := true,
                streams_opened := c.streams_opened + 1 }
  else Except.error "Error iniciando captura"

/-- `AudioCapture.stop_capture` (lines 73-86). -/
def stop_capture (c : CaptureState) : CaptureState :=
  if !c.is_recording then c
  else { c with is_recording := false, stream_open := false }

end CaptureState

/-- State of an `AudioManager` (src/audio/audio_manager.py lines 14-35).
    `saved_files` records the artifacts written by
    `processor.save_audio_to_file`; `dispatched` records the transcription
    tasks scheduled with `asyncio.create_task` (path, relative timestamp).
    The `on_audio_ready` callback is an external observer and is not
    modelled as state. -/
structure AudioManager where
  is_active : Bool
  meeting_id : Option Int
  start_time : Option ℚ
  processor : AudioProcessor
  capture : CaptureState
  transcriptions : List TranscriptionResult
  saved_files : List (String × Wav)
  dispatched : List (String × ℚ)
deriving Repr, DecidableEq

/-- Python truthiness of `self.meeting_id : Optional[int]`: `None` and `0`
    are falsy. -/
def optIntTruthy : Option Int → Bool
  | none => false
  | some n => n != 0

namespace AudioManager

/-- `AudioManager.__init__` (lines 17-35). -/
def init (rate : ℚ) (ch : Nat) (tgt : ℚ) : AudioManager :=
  { is_active := false, meeting_id := none, start_time := none,
    processor := AudioProcessor.init rate ch tgt,
    capture := CaptureState.init, transcriptions := [],
    saved_files := [], dispatched := [] }

/-- `AudioManager._generate_filename` (lines 101-104); `nowStr` is the
    formatted `datetime.now()`. -/
def generate_filename (meeting_id : Option Int) (nowStr : String) : String :=
  "meeting_" ++ (match meeting_id with
                 | some n => toString n
                 | none => "None") ++ "_" ++ nowStr ++ ".wav"

/-- `AudioManager.start` (lines 37-49): if already active, warn and return
    with no state change; otherwise set meeting id, start time and the
    active flag, then start the capture (whose open failure propagates). -/
def start (m : AudioManager) (meeting_id : Int) (open_ok : Bool) (now : ℚ) :
    Except String AudioManager :=
  if m.is_active then Except.ok m
  else
    let m2 := { m with meeting_id := some meeting_id,
                       start_time := some now, is_active := true }
    match m2.capture.start_capture open_ok with
    | Except.ok c => Except.ok { m2 with capture := c }
    | Except.error e => Except.error e

/-- `AudioManager._process_current_buffer` (lines 77-99): flush the window
    buffer; if it yields an artifact (WAV bytes are never empty, so the
    `len(audio_bytes) > 0` test passes exactly when `process_buffer`
    returned a value), compute the relative timestamp, and — only when
    `self.meeting_id` is truthy — persist the artifact and schedule the
    transcription task. `now` is `time.time()`; `nowStr` feeds the
    file-name generator. Assumes a running event loop, as in the API
    server context. -/
def process_current_buffer (m : AudioManager) (now : ℚ) (nowStr : String) :
    AudioManager :=
  let flushed := m.processor.process_buffer
  let m2 := { m with processor := flushed.2 }
  match flushed.1 with
  | none => m2
  | some w =>
    let timestamp := match m2.start_time with
                     | some t0 => now - t0
                     | none => 0
    if optIntTruthy m2.meeting_id then
      let filename := generate_filename m2.meeting_id nowStr
      { m2 with saved_files := m2.saved_files ++ [(filename, w)],
                dispatched := m2.dispatched ++ [(filename, timestamp)] }
    else m2

/-- `AudioManager._handle_audio_chunk` (lines 65-75): ignore the chunk when
    inactive; otherwise add it to the processor and flush once the buffered
    duration reaches the target. -/
def handle_audio_chunk (m : AudioManager) (data : List Int) (duration : ℚ)
    (now : ℚ) (nowStr : String) : AudioManager :=
  if !m.is_active then m
  else
    let m2 := { m with processor := m.processor.add_chunk data duration }
    if m2.processor.get_buffer_duration ≥ m2.processor.target_duration then
      m2.process_current_buffer now nowStr
    else m2

/-- `AudioManager.stop` (lines 51-63): no-op when inactive; otherwise clear
    the active flag, stop the capture, and flush any partially filled
    buffer through `_process_current_buffer`. -/
def stop (m : AudioManager) (now : ℚ) (nowStr : String) : AudioManager :=
  if !m.is_active then m
  else
    let m2 := { m with is_active := false,
                       capture := m.capture.stop_capture }
    if m2.processor.get_buffer_duration > 0 then
      m2.process_current_buffer now nowStr
    else m2

/-- `AudioManager.get_audio_level` (lines 110-115): the level of the last
    buffered chunk, or 0.0 on an empty buffer. `cap_level` stands for
    `AudioCapture.get_audio_level`, which is referenced here but defined
    nowhere in the repository; see `capture_get_audio_level_spec`. -/
def get_audio_level (m : AudioManager) (cap_level : List Int → ℚ) : ℚ :=
  match m.processor.audio_buffer.getLast? with
  | some last_chunk => cap_level last_chunk
  | none => 0

/-- `AudioManager._transcribe_audio_file` (lines 117-125): attach the
    relative timestamp to the result and append it to the per-session log. -/
def append_transcription (m : AudioManager) (r : TranscriptionResult)
    (timestamp : ℚ) : AudioManager :=
  { m with transcriptions :=
      m.transcriptions ++ [{ r with relative_timestamp := some timestamp }] }

end AudioManager

/-- Modelled from the spec: the session-control contract
    `currentAudioLevel() -> float [0,1]` (spec §6). The collaborator
    `AudioCapture.get_audio_level` is called by
    `AudioManager.get_audio_level` but is missing from the repository
    (only its caller exists under src/); the spec specifies only that the
    per-chunk audio level is a float in [0, 1]. This predicate states that
    a candidate level function obeys that contract. -/
def capture_get_audio_level_spec (cap_level : List Int → ℚ) : Prop :=
  ∀ chunk, 0 ≤ cap_level chunk ∧ cap_level chunk ≤ 1


/-! ## Theorems about the claims -/

/-- Helper: running a sequence of `add_chunk` calls from any processor adds
    the chunk data to the buffer in order and the durations to the running
    total. -/
theorem AudioProcessor.foldl_add_chunk (ops : List (List Int × ℚ)) :
    ∀ p : AudioProcessor,
      (ops.foldl (fun q op => q.add_chunk op.1 op.2) p).buffer_duration
          = p.buffer_duration + (ops.map Prod.snd).sum
        ∧ (ops.foldl (fun q op => q.add_chunk op.1 op.2) p).audio_buffer
          = p.audio_buffer ++ ops.map Prod.fst := by
  induction ops with
  | nil => intro p; simp
  | cons op rest ih =>
      intro p
      have h := ih (p.add_chunk op.1 op.2)
      simp only [List.foldl_cons, List.map_cons, List.sum_cons]
      refine ⟨h.1.trans ?_, h.2.trans ?_⟩
      · simp [AudioProcessor.add_chunk]; ring
      · simp [AudioProcessor.add_chunk]

/-- C4: for every sequence of `add_chunk` calls the running buffered duration
    is the sum of the buffered chunks' durations (and the buffer holds
    exactly those chunks in order); `process_buffer` on an empty buffer
    returns `None` and changes nothing; a flush of a non-empty buffer
    succeeds and leaves an empty buffer with duration exactly 0. -/
theorem window_buffer_invariant (rate tgt : ℚ) (ch : Nat)
    (ops : List (List Int × ℚ)) (p q : AudioProcessor) :
    (AudioProcessor.execAdds rate ch tgt ops).buffer_duration
        = (ops.map Prod.snd).sum
    ∧ (AudioProcessor.execAdds rate ch tgt ops).audio_buffer
        = ops.map Prod.fst
    ∧ (p.audio_buffer = [] → p.process_buffer = (none, p))
    ∧ (q.audio_buffer ≠ [] →
        q.process_buffer.2.audio_buffer = []
        ∧ q.process_buffer.2.buffer_duration = 0
        ∧ ∃ w, q.process_buffer.1 = some w) := by
  have h := AudioProcessor.foldl_add_chunk ops (AudioProcessor.init rate ch tgt)
  refine ⟨?_, ?_, ?_, ?_⟩
  · simpa [AudioProcessor.execAdds, AudioProcessor.init] using h.1
  · simpa [AudioProcessor.execAdds, AudioProcessor.init] using h.2
  · intro he; simp [AudioProcessor.process_buffer, he]
  · intro hne
    simp [AudioProcessor.process_buffer, hne, AudioProcessor.clear_buffer]

/-- C4 witness: the invariant at a concrete run of two chunks, a concrete
    empty processor and a concrete non-empty one. -/
theorem window_buffer_invariant_witness :
    (AudioProcessor.execAdds 16000 1 5 [([1, 2], 1/2), ([3], 1/4)]).buffer_duration = 3/4
    ∧ ((AudioProcessor.init 16000 1 5).process_buffer
        = (none, AudioProcessor.init 16000 1 5))
    ∧ ((AudioProcessor.init 16000 1 5).add_chunk [9] 2).process_buffer.2.audio_buffer = [] := by
  have h := window_buffer_invariant 16000 5 1 [([1, 2], 1/2), ([3], 1/4)]
    (AudioProcessor.init 16000 1 5) ((AudioProcessor.init 16000 1 5).add_chunk [9] 2)
  exact ⟨h.1.trans (by norm_num), h.2.2.1 rfl, (h.2.2.2 (by decide)).1⟩

/-- C3: `transcribe_audio` never propagates a failure. For every artifact
    path and every behaviour of the external capabilities (the function is
    total over all oracle behaviours, including ones that raise), the call
    either succeeds with the fixed confidence 9/10 on recognized text, or
    returns one of the three sentinel results with confidence 0. -/
theorem transcribe_audio_absorbs_failures (eng : TranscriptionEngine)
    (env : TranscribeEnv) (audio_path : String) :
    ((eng.transcribe_audio env audio_path).1.confidence = 9/10
      ∧ ∃ t, env.recognize audio_path = RecognitionOutcome.recognized t)
    ∨ ((eng.transcribe_audio env audio_path).1.confidence = 0
      ∧ ((eng.transcribe_audio env audio_path).1.text = "[Inaudible]"
        ∨ (eng.transcribe_audio env audio_path).1.text = "[Error de transcripción]"
        ∨ (eng.transcribe_audio env audio_path).1.text = "[Error]")) := by
  unfold TranscriptionEngine.transcribe_audio TranscriptionEngine.transcribe_body
  cases hload : env.load_error audio_path with
  | some e => right; simp
  | none =>
    cases hrec : env.recognize audio_path with
    | recognized t =>
        cases hc : eng.transcription_cache with
        | none => right; simp
        | some cache =>
            left
            constructor
            · cases hs : eng.enable_speaker_identification <;> simp [hs]
            · exact ⟨t, rfl⟩
    | unknownValue =>
        cases hc : eng.transcription_cache with
        | none => right; simp
        | some cache =>
            right
            cases hs : eng.enable_speaker_identification <;> simp [hs]
    | requestError msg =>
        cases hc : eng.transcription_cache with
        | none => right; simp
        | some cache =>
            right
            cases hs : eng.enable_speaker_identification <;> simp [hs]

/-- Oracle: loading always succeeds and the recognizer always returns the
    text "hola"; the LLM calls raise; features are zeroed. -/
def envRecognizes : TranscribeEnv :=
  { load_error := fun _ => none,
    recognize := fun _ => RecognitionOutcome.recognized "hola",
    enhance := fun _ => none, classify_style := fun _ => none,
    features := fun _ => { energy := 0, pitch := 0, duration := 0 },
    now := "T" }

/-- An engine as built by `TranscriptionEngine()` under the default settings
    (`use_ai_enhancement = False`, no API key, language `es-ES`, speaker
    identification enabled). Its `transcription_cache` attribute is
    unassigned. -/
def engDefault : TranscriptionEngine :=
  TranscriptionEngine.pyInit none false false false "es-ES" true

/-- C1: the transcription cache does not work. On a fresh engine, calling
    `transcribe_audio` twice with the same path invokes the external
    recognizer twice (not at most once): `__init__` never assigns
    `self.transcription_cache`, so the store at engine.py line 94 raises
    `AttributeError`, the outer handler turns every call into the
    `"[Error]"` sentinel, and no cache entry is ever created. Moreover the
    method contains no cache lookup at all: even starting from an engine
    whose cache attribute is a dict, a second call with the same path still
    invokes the recognizer again. -/
theorem transcription_cache_never_used :
    (let c1 := engDefault.transcribe_audio envRecognizes "a.wav"
     let c2 := c1.2.1.transcribe_audio envRecognizes "a.wav"
     c1.2.2 + c2.2.2 = 2
       ∧ c1.1.text = "[Error]"
       ∧ c2.1 = c1.1
       ∧ c1.2.1.transcription_cache = none)
    ∧ (let engFixed : TranscriptionEngine :=
         { engDefault with transcription_cache := some [] }
       let d1 := engFixed.transcribe_audio envRecognizes "a.wav"
       let d2 := d1.2.1.transcribe_audio envRecognizes "a.wav"
       d1.2.2 + d2.2.2 = 2) := by
  decide

/-- Oracle: loading succeeds and the recognizer reports no speech
    (`sr.UnknownValueError`). -/
def envNoSpeech : TranscribeEnv :=
  { envRecognizes with recognize := fun _ => RecognitionOutcome.unknownValue }

/-- C2: on "no speech detected" the returned result is NOT the
    `"[Inaudible]"` sentinel. The inner handler (engine.py lines 71-73)
    does set `text = "[Inaudible]"`, `confidence = 0.0`, but the cache
    store at line 94 then raises `AttributeError` (the attribute is never
    initialised), so the outer handler replaces the result with the
    `"[Error]"` sentinel, and that is what gets appended to the
    per-session log with its relative timestamp. -/
theorem no_speech_sentinel_lost :
    (let r := (engDefault.transcribe_audio envNoSpeech "m.wav").1
     r.text = "[Error]"
       ∧ r.text ≠ "[Inaudible]"
       ∧ r.confidence = 0
       ∧ ((AudioManager.init 16000 1 5).append_transcription r 7).transcriptions
           = [{ r with relative_timestamp := some 7 }]
       ∧ (((AudioManager.init 16000 1 5).append_transcription r 7).transcriptions.map
            TranscriptionResult.text) = ["[Error]"]) := by
  decide

/-- A fresh manager with the default configuration (16 kHz mono, 5 s
    window). -/
def mgr0 : AudioManager := AudioManager.init 16000 1 5

/-- The session obtained by `start(meeting_id=0)` on a fresh manager (the
    device opens successfully). -/
def mgrZeroId : AudioManager :=
  match mgr0.start 0 true 0 with
  | Except.ok m => m
  | Except.error _ => mgr0

/-- `mgrZeroId` after capturing one 1-second chunk (below the 5 s window
    target, so nothing is flushed yet). -/
def mgrZeroIdFilled : AudioManager := mgrZeroId.handle_audio_chunk [5, 6] 1 1 "t1"

/-- C5 counterexample: a session started with `meeting_id = 0` is active
    with a partially filled buffer, yet `stop` flushes the buffer and then
    persists nothing and dispatches nothing, because
    `_process_current_buffer` guards persistence and dispatch with the
    Python truthiness test `if self.meeting_id:` and `0` is falsy. -/
theorem stop_zero_meeting_id_drops_artifact :
    mgr0.start 0 true 0 = Except.ok mgrZeroId
    ∧ mgrZeroIdFilled.is_active = true
    ∧ mgrZeroIdFilled.processor.buffer_duration = 1
    ∧ mgrZeroIdFilled.processor.audio_buffer ≠ []
    ∧ (mgrZeroIdFilled.stop 2 "t2").processor.audio_buffer = []
    ∧ (mgrZeroIdFilled.stop 2 "t2").saved_files = []
    ∧ (mgrZeroIdFilled.stop 2 "t2").dispatched = [] := by
  refine ⟨rfl, ?_⟩
  norm_num [mgrZeroIdFilled, mgrZeroId, mgr0, AudioManager.init, AudioManager.start,
    AudioManager.handle_audio_chunk, AudioManager.stop, AudioManager.process_current_buffer,
    AudioProcessor.init, AudioProcessor.add_chunk, AudioProcessor.get_buffer_duration,
    AudioProcessor.process_buffer, AudioProcessor.clear_buffer, AudioProcessor.numpy_to_wav,
    CaptureState.init, CaptureState.start_capture, CaptureState.stop_capture, optIntTruthy]

/-- C5 (amended): whenever `stop` is called on an active session whose
    window buffer is partially filled and whose meeting id is truthy
    (non-`None` and non-zero), the buffer is flushed and the resulting
    artifact is persisted under the generated file name and synchronously
    dispatched for transcription with its relative timestamp before `stop`
    returns, leaving the buffer empty with duration 0. -/
theorem stop_flushes_and_dispatches (m : AudioManager) (now : ℚ) (nowStr : String)
    (hact : m.is_active = true) (hdur : 0 < m.processor.buffer_duration)
    (hbuf : m.processor.audio_buffer ≠ [])
    (hmid : optIntTruthy m.meeting_id = true) :
    ∃ w, (m.stop now nowStr).saved_files
          = m.saved_files ++ [(AudioManager.generate_filename m.meeting_id nowStr, w)]
      ∧ (m.stop now nowStr).dispatched
          = m.dispatched ++ [(AudioManager.generate_filename m.meeting_id nowStr,
              match m.start_time with | some t0 => now - t0 | none => 0)]
      ∧ (m.stop now nowStr).processor.audio_buffer = []
      ∧ (m.stop now nowStr).processor.buffer_duration = 0 := by
  refine ⟨(m.processor.numpy_to_wav m.processor.audio_buffer.flatten), ?_, ?_, ?_, ?_⟩ <;>
    simp [AudioManager.stop, AudioManager.process_current_buffer,
      AudioProcessor.process_buffer, AudioProcessor.get_buffer_duration,
      AudioProcessor.clear_buffer, hact, hdur, hbuf, hmid]

/-- The session obtained by `start(meeting_id=7)` on a fresh manager,
    after one 1-second chunk. -/
def mgrSevenFilled : AudioManager :=
  (match mgr0.start 7 true 0 with
   | Except.ok m => m
   | Except.error _ => mgr0).handle_audio_chunk [5, 6] 1 1 "t1"

/-- C5 witness: the amended statement at a concrete reachable session with
    meeting id 7 and one buffered chunk. -/
theorem stop_flushes_and_dispatches_witness :
    ∃ w, (mgrSevenFilled.stop 3 "t2").saved_files
          = mgrSevenFilled.saved_files
            ++ [(AudioManager.generate_filename mgrSevenFilled.meeting_id "t2", w)]
      ∧ (mgrSevenFilled.stop 3 "t2").dispatched
          = mgrSevenFilled.dispatched
            ++ [(AudioManager.generate_filename mgrSevenFilled.meeting_id "t2",
                match mgrSevenFilled.start_time with | some t0 => 3 - t0 | none => 0)]
      ∧ (mgrSevenFilled.stop 3 "t2").processor.audio_buffer = []
      ∧ (mgrSevenFilled.stop 3 "t2").processor.buffer_duration = 0 :=
  stop_flushes_and_dispatches mgrSevenFilled 3 "t2"
    (by norm_num [mgrSevenFilled, mgr0, AudioManager.init, AudioManager.start,
      AudioManager.handle_audio_chunk, AudioProcessor.init, AudioProcessor.add_chunk,
      AudioProcessor.get_buffer_duration, CaptureState.init, CaptureState.start_capture])
    (by norm_num [mgrSevenFilled, mgr0, AudioManager.init, AudioManager.start,
      AudioManager.handle_audio_chunk, AudioProcessor.init, AudioProcessor.add_chunk,
      AudioProcessor.get_buffer_duration, CaptureState.init, CaptureState.start_capture])
    (by norm_num [mgrSevenFilled, mgr0, AudioManager.init, AudioManager.start,
      AudioManager.handle_audio_chunk, AudioProcessor.init, AudioProcessor.add_chunk,
      AudioProcessor.get_buffer_duration, CaptureState.init, CaptureState.start_capture])
    (by norm_num [mgrSevenFilled, mgr0, AudioManager.init, AudioManager.start,
      AudioManager.handle_audio_chunk, AudioProcessor.init, AudioProcessor.add_chunk,
      AudioProcessor.get_buffer_duration, CaptureState.init, CaptureState.start_capture,
      optIntTruthy])

/-- A 22-sample PCM16 artifact: one sample of value 182 followed by
    silence. -/
def c6samples : List Int := 182 :: List.replicate 21 0

/-- A 22-sample PCM16 artifact: one full-scale sample (32767) followed by
    silence. -/
def c6full : List Int := 32767 :: List.replicate 21 0

/-- C6: the energy is NOT `sqrt(mean(sample^2))/32768` over the exact
    integer samples. The source squares the `int16` array in 16-bit
    arithmetic, so each square wraps modulo 2^16: on `c6samples` the mean
    of the computed squares is negative (wrap of 182² = 33124 is -32412),
    so `np.sqrt` yields NaN and the energy is not even in [0,1]; on
    `c6full` the computed radicand is 1/22 instead of 1073676289/22, an
    energy about 32767 times too small. -/
theorem energy_int16_overflow :
    TranscriptionEngine.meanSquareCode c6samples = -16206/11
    ∧ TranscriptionEngine.meanSquareCode c6samples < 0
    ∧ TranscriptionEngine.meanSquareExact c6samples = 16562/11
    ∧ TranscriptionEngine.meanSquareCode c6full = 1/22
    ∧ TranscriptionEngine.meanSquareExact c6full = 1073676289/22 := by
  norm_num [c6samples, c6full, TranscriptionEngine.meanSquareCode,
    TranscriptionEngine.meanSquareExact, TranscriptionEngine.sumSqWrapped,
    wrapInt16, List.replicate, List.sum_cons]

/-- A 22-sample PCM16 artifact: samples 182, twenty zeros, 182. Its exact
    autocorrelation over the available lag range [20, 22) is 0 at lag 20
    and 33124 at lag 21, so the maximum is at lag 21. -/
def c7samples : List Int := 182 :: (List.replicate 20 0 ++ [182])

/-- C7: the pitch is NOT `sampleRate / peakLagIndex` for the peak of the
    (exact) autocorrelation restricted to [20, 500). On `c7samples` at
    16 kHz the exact autocorrelation peaks at lag 21 (33124 > 0), so the
    claimed pitch is 16000/21 ≈ 761.9; but the source's int16
    autocorrelation wraps 33124 to -32412, `np.argmax` therefore picks
    lag 20, and the code returns 800. -/
theorem pitch_int16_overflow :
    TranscriptionEngine.pitchCode c7samples 16000 = 800
    ∧ TranscriptionEngine.autocorrRaw c7samples 20 = 0
    ∧ TranscriptionEngine.autocorrRaw c7samples 21 = 33124
    ∧ TranscriptionEngine.autocorrCode c7samples 21 = -32412
    ∧ (16000 : ℚ) / 21 ≠ 800 := by
  refine ⟨?_, by decide, by decide, by decide, by norm_num⟩
  norm_num [c7samples, TranscriptionEngine.pitchCode, TranscriptionEngine.argmaxIdx,
    TranscriptionEngine.autocorrCode, TranscriptionEngine.autocorrRaw, wrapInt16,
    List.replicate, List.range_succ, List.enum, List.enumFrom, List.foldl_cons,
    List.foldl_nil]

/-- An engine with AI enhancement enabled and an initialised LLM, as built
    by `TranscriptionEngine(use_ai_enhancement=True)` with an API key
    configured and successful LLM construction. -/
def engAI : TranscriptionEngine :=
  TranscriptionEngine.pyInit (some true) false true true "es-ES" true

/-- A result log holding one transcription-error sentinel entry. -/
def tsErrorOnly : List TranscriptionResult :=
  [{ text := "[Error de transcripción]", confidence := 0, language := some "es-ES",
     timestamp := some "T", speaker := none, error := none,
     relative_timestamp := some 0 }]

/-- C8 counterexample: on a result log holding only the transcription-error
    sentinel `"[Error de transcripción]"`, the summary builder does NOT
    skip the entry — the filter at engine.py lines 209-211 only drops
    falsy text and `"[Inaudible]"` — so the summarization capability IS
    invoked, with the sentinel inside the transcript, instead of the fixed
    "not available" message being returned. -/
theorem summary_includes_error_sentinel :
    engAI.generate_meeting_summary
        (fun s => some ("LLAMADA:" ++ s)) tsErrorOnly
      = "LLAMADA:Desconocido: [Error de transcripción]"
    ∧ tsErrorOnly.filter TranscriptionEngine.summaryKeep ≠ [] := by
  exact ⟨rfl, by decide⟩

/-- C8 (amended): the summary builder skips exactly the entries whose text
    is empty or the no-speech sentinel `"[Inaudible]"` (transcription-error
    sentinel entries are kept); when AI enhancement is disabled or no LLM
    exists it returns the fixed "IA no habilitada" message, and when every
    entry is skipped it returns the fixed "No hay suficiente contenido"
    message — in both fixed cases without consulting the summarization
    capability (the output is the same for any two capabilities `f`, `g`). -/
theorem generate_meeting_summary_filter (eng : TranscriptionEngine)
    (f g : String → Option String) (ts : List TranscriptionResult) :
    ((eng.use_ai_enhancement = false ∨ eng.has_llm = false) →
        eng.generate_meeting_summary f ts = "Resumen no disponible (IA no habilitada)")
    ∧ (ts.filter TranscriptionEngine.summaryKeep = [] →
        eng.generate_meeting_summary f ts = eng.generate_meeting_summary g ts)
    ∧ (ts.filter TranscriptionEngine.summaryKeep = [] →
        eng.use_ai_enhancement = true → eng.has_llm = true →
        eng.generate_meeting_summary f ts
          = "No hay suficiente contenido para generar un resumen")
    ∧ eng.generate_meeting_summary f ts
        = eng.generate_meeting_summary f (ts.filter TranscriptionEngine.summaryKeep) := by
  refine ⟨?_, ?_, ?_, ?_⟩
  · rintro (h | h) <;> simp [TranscriptionEngine.generate_meeting_summary, h]
  · intro hf
    have hint : "\n".intercalate ([] : List String) = "" := rfl
    by_cases hai : eng.use_ai_enhancement
    · by_cases hllm : eng.has_llm
      · simp [TranscriptionEngine.generate_meeting_summary, hai, hllm, hf, hint]
      · simp [TranscriptionEngine.generate_meeting_summary, hllm]
    · simp [TranscriptionEngine.generate_meeting_summary, hai]
  · intro hf hai hllm
    have hint : "\n".intercalate ([] : List String) = "" := rfl
    simp [TranscriptionEngine.generate_meeting_summary, hai, hllm, hf, hint]
  · simp [TranscriptionEngine.generate_meeting_summary, List.filter_filter]

/-- A result log holding one no-speech sentinel entry (which is skipped). -/
def tsInaudibleOnly : List TranscriptionResult :=
  [{ text := "[Inaudible]", confidence := 0, language := some "es-ES",
     timestamp := some "T", speaker := none, error := none,
     relative_timestamp := some 0 }]

/-- C8 witness: the amended statement at concrete engines and logs — the
    disabled engine returns the "IA no habilitada" message, the enabled
    engine on an all-skipped log returns the "No hay suficiente contenido"
    message, and the summary of a log equals the summary of its filtered
    log. -/
theorem generate_meeting_summary_filter_witness :
    engDefault.generate_meeting_summary (fun _ => none) tsInaudibleOnly
        = "Resumen no disponible (IA no habilitada)"
    ∧ engAI.generate_meeting_summary (fun _ => none) tsInaudibleOnly
        = "No hay suficiente contenido para generar un resumen"
    ∧ engAI.generate_meeting_summary (fun _ => none) tsErrorOnly
        = engAI.generate_meeting_summary (fun _ => none)
            (tsErrorOnly.filter TranscriptionEngine.summaryKeep) :=
  ⟨(generate_meeting_summary_filter engDefault (fun _ => none) (fun _ => none)
      tsInaudibleOnly).1 (Or.inl rfl),
   (generate_meeting_summary_filter engAI (fun _ => none) (fun _ => none)
      tsInaudibleOnly).2.2.1 rfl rfl rfl,
   (generate_meeting_summary_filter engAI (fun _ => none) (fun _ => none)
      tsErrorOnly).2.2.2⟩

/-- C9: under the spec's contract for the (missing) per-chunk level
    function, `AudioManager.get_audio_level` is total and always returns a
    value in [0, 1] — both on an empty processing buffer (where it returns
    0) and on a non-empty one (where it returns the level of the last
    chunk). -/
theorem get_audio_level_in_unit_interval (m : AudioManager)
    (cap_level : List Int → ℚ)
    (hspec : capture_get_audio_level_spec cap_level) :
    0 ≤ m.get_audio_level cap_level ∧ m.get_audio_level cap_level ≤ 1 := by
  unfold AudioManager.get_audio_level
  cases h : m.processor.audio_buffer.getLast? with
  | none => norm_num
  | some c => exact hspec c

/-- A manager whose processing buffer holds one chunk. -/
def mgrOneChunk : AudioManager :=
  { AudioManager.init 16000 1 5 with
      processor := (AudioProcessor.init 16000 1 5).add_chunk [3, 4] (1/16000) }

/-- C9 witness: the audio level lies in [0, 1] on a concrete empty-buffer
    manager and on a concrete one-chunk manager, for the constant level
    function 1/2 (which satisfies the spec contract). -/
theorem get_audio_level_in_unit_interval_witness :
    (0 ≤ (AudioManager.init 16000 1 5).get_audio_level (fun _ => 1/2)
      ∧ (AudioManager.init 16000 1 5).get_audio_level (fun _ => 1/2) ≤ 1)
    ∧ (0 ≤ mgrOneChunk.get_audio_level (fun _ => 1/2)
      ∧ mgrOneChunk.get_audio_level (fun _ => 1/2) ≤ 1) :=
  ⟨get_audio_level_in_unit_interval (AudioManager.init 16000 1 5) (fun _ => 1/2)
      (fun _ => by norm_num),
   get_audio_level_in_unit_interval mgrOneChunk (fun _ => 1/2)
      (fun _ => by norm_num)⟩

/-- C10: calling `start` on an already-active manager returns immediately
    with the entire session state unchanged — same meeting id, session
    start time, window-buffer contents, capture stream and stream-open
    count — and no error, regardless of the requested meeting id, device
    open outcome and clock. -/
theorem start_when_active_is_noop (m : AudioManager) (mid : Int)
    (open_ok : Bool) (now : ℚ) (hact : m.is_active = true) :
    m.start mid open_ok now = Except.ok m := by
  simp [AudioManager.start, hact]

/-- An active session in the middle of a meeting: meeting 3, an open
    device stream, one buffered chunk. -/
def mgrActive : AudioManager :=
  { AudioManager.init 16000 1 5 with
      is_active := true, meeting_id := some 3, start_time := some 10,
      capture := { is_recording := true, stream_open := true, streams_opened := 1 },
      processor := (AudioProcessor.init 16000 1 5).add_chunk [7] (1/16000) }

/-- C10 witness: `start` on the concrete active session `mgrActive` (with a
    different meeting id, and a device that would fail to open) returns it
    unchanged. -/
theorem start_when_active_is_noop_witness :
    mgrActive.start 99 false 77 = Except.ok mgrActive :=
  start_when_active_is_noop mgrActive 99 false 77 rfl
